import Mathlib

/-!
Verification of the celluloidRecall core: a shallow embedding of the
session/playback data model (src/core/domain.py), the supervision loop of the mpv player driver and IPC protocol client (src/core/drivers/mpv_driver.py),
the JSON session repository (src/core/repository.py) and the library
service (src/core/services.py), together with theorems settling the
claims of the specification about them.

Python floats are modelled as rationals (Rat); datetimes as Nat stamps
(isoformat round-trips exactly, so a datetime is treated as an abstract stamp here);
the effectful driver is modelled by explicit state passing over a trace
of per-tick poll observations, with process/IPC effects recorded in an
explicit outcome record.
-/

namespace CelluloidRecall

/-- src/core/domain.py, PlaybackState: dynamic playback data for a media
file.  Field defaults mirror the dataclass defaults (timestamp default is
datetime.now(), supplied explicitly as a Nat where needed). -/
structure PlaybackState where
  last_played_file : String := ""
  last_played_index : Nat := 0
  position : Rat := 0
  duration : Rat := 0
  is_finished : Bool := false
  timestamp : Nat := 0
deriving DecidableEq, Repr

/-- src/core/domain.py, MediaMetadata. -/
structure MediaMetadata where
  clean_title : String
  season_number : Option Int := none
  is_user_locked_title : Bool := false
deriving DecidableEq, Repr

/-- src/core/domain.py, Session: aggregate of metadata and playback keyed
by a filepath. -/
structure Session where
  filepath : String
  metadata : MediaMetadata
  playback : PlaybackState := {}
deriving DecidableEq, Repr

/-! ## Player driver (src/core/drivers/mpv_driver.py)

The tracking loop polls three properties each tick: duration, current
path, and time-pos.  A poll either gets no answer (None in Python), or a
value which may or may not parse as a float. -/

/-- The payload of an answered numeric poll: either a value that
float() accepts, or one that raises ValueError/TypeError. -/
inductive NumResp where
  | val (q : Rat)
  | unparsable
deriving DecidableEq, Repr

/-- One iteration of the mpv tracking loop observes these three poll
results (None models a null / timed-out IPC answer). -/
structure Tick where
  dur : Option NumResp := none
  path : Option String := none
  pos : Option NumResp := none
deriving DecidableEq, Repr

/-- The local variables of MpvDriver.launch that the tracking loop
mutates (mpv_driver.py lines 43-49). -/
structure DriverState where
  final_position : Rat
  total_duration : Rat
  last_played_file : String
  initial_seek_done : Bool
deriving DecidableEq, Repr

/-- Stage 1 of a tick (mpv_driver.py lines 58-70): poll duration; when it
parses, adopt it only while the held duration is still 0.  Returns the
parsed value (current_dur) alongside the updated state. -/
def pollDur (s : DriverState) (d : Option NumResp) : DriverState × Option Rat :=
  match d with
  | some (NumResp.val q) =>
      (if s.total_duration = 0 then { s with total_duration := q } else s, some q)
  | some NumResp.unparsable => (s, none)
  | none => (s, none)

/-- Stage 2 of a tick (lines 72-81): once current_dur proves the file
loaded, issue the one-time seek/unpause; only the flag is observable
state. -/
def doSeek (s : DriverState) (current_dur : Option Rat) : DriverState :=
  match current_dur with
  | some q =>
      if s.initial_seek_done = false ∧ 0 < q then { s with initial_seek_done := true } else s
  | none => s

/-- Stage 3 of a tick (lines 83-92): episode-transition detection.  A
truthy polled path differing from the tracked file resets duration and
position and adopts the new file. -/
def checkTransition (s : DriverState) (path : Option String) : DriverState :=
  match path with
  | some p =>
      if p ≠ "" ∧ p ≠ s.last_played_file then
        { s with last_played_file := p, total_duration := 0, final_position := 0 }
      else s
  | none => s

/-- Stage 4 of a tick (lines 94-100): adopt the polled position when it
parses; otherwise keep the previous value. -/
def pollPos (s : DriverState) (pos : Option NumResp) : DriverState :=
  match pos with
  | some (NumResp.val q) => { s with final_position := q }
  | _ => s

/-- One full iteration of the tracking loop, stages in source order. -/
def step (s : DriverState) (t : Tick) : DriverState :=
  let s1 := pollDur s t.dur
  let s2 := doSeek s1.1 s1.2
  let s3 := checkTransition s2 t.path
  pollPos s3 t.pos

/-- Initial loop state (lines 43-46): position starts at the requested
start_time, duration unknown, tracked file is playlist[start_index] with
the playlist[0] fallback of the source. -/
def initDriverState (playlist : List String) (start_index : Nat) (start_time : Rat) :
    DriverState :=
  { final_position := start_time
    total_duration := 0
    last_played_file :=
      if h : start_index < playlist.length then playlist.get ⟨start_index, h⟩
      else playlist.headD ""
    initial_seek_done := false }

/-- The result of one launch: the final PlaybackState plus the process /
endpoint effects made explicit. -/
structure LaunchOutcome where
  state : PlaybackState
  spawned : Bool
  ipcEndpointUsed : Bool
  processReaped : Bool
deriving DecidableEq, Repr

/-- src/core/drivers/mpv_driver.py, MpvDriver.launch, modelled over an
environment consisting of: whether the IPC connection is established
within the bounded timeout (connectOk), the trace of poll observations
while the process lives (ticks; a broken pipe merely truncates the
trace), and the capture instant (now).  An empty playlist returns a
default state before any process is spawned (lines 20-21); a connection
failure raises past the classification, returning the untouched locals
(lines 52-54 and 113-128); otherwise the loop folds over the trace and
the finished flag is classified at lines 110-111. -/
def MpvDriver.launch (playlist : List String) (start_index : Nat) (start_time : Rat)
    (connectOk : Bool) (ticks : List Tick) (now : Nat) : LaunchOutcome :=
  if playlist.isEmpty then
    { state := { last_played_file := "", last_played_index := 0, position := 0,
                 duration := 0, is_finished := false, timestamp := now }
      spawned := false, ipcEndpointUsed := false, processReaped := false }
  else if connectOk then
    let s0 := initDriverState playlist start_index start_time
    let sf := ticks.foldl step s0
    { state := { last_played_file := sf.last_played_file, last_played_index := 0,
                 position := sf.final_position, duration := sf.total_duration,
                 is_finished := decide (0 < sf.total_duration ∧ sf.total_duration - sf.final_position < 5),
                 timestamp := now }
      spawned := true, ipcEndpointUsed := true, processReaped := true }
  else
    let s0 := initDriverState playlist start_index start_time
    { state := { last_played_file := s0.last_played_file, last_played_index := 0,
                 position := s0.final_position, duration := s0.total_duration,
                 is_finished := false, timestamp := now }
      spawned := true, ipcEndpointUsed := true, processReaped := true }

/-! ## Protocol client (mpv_driver.py, _send_ipc_command, lines 151-185)

The reply stream is modelled as the list of newline-delimited lines read
before the per-call receive timeout; each line either fails JSON decoding
(or is blank) or is a reply object whose request_id field may be absent. -/

/-- One line on the IPC reply stream; the data payload type is abstract. -/
inductive IpcLine (α : Type) where
  | malformed : IpcLine α
  | reply (request_id : Option Int) (error : String) (data : Option α) : IpcLine α
deriving DecidableEq, Repr

/-- The read loop of _send_ipc_command (lines 165-181): scan lines,
discard malformed ones, skip replies whose request_id does not match,
and on the matching reply return its data when error is "success" and
null otherwise; an exhausted stream (receive timeout / closed socket)
returns null. -/
def readReplies {α : Type} (request_id : Int) : List (IpcLine α) → Option α
  | [] => none
  | IpcLine.malformed :: rest => readReplies request_id rest
  | IpcLine.reply rid err data :: rest =>
      if rid = some request_id then (if err = "success" then data else none)
      else readReplies request_id rest

/-- _send_ipc_command (lines 151-185): increments the
request_id_counter of the driver, tags the request with the new id, and reads replies
until the matching one (or the stream ends).  Returns the new counter
value (which is also the id assigned to this call) and the result. -/
def send_ipc_command {α : Type} (request_id_counter : Nat) (lines : List (IpcLine α)) :
    Nat × Option α :=
  let request_id := request_id_counter + 1
  (request_id, readReplies (request_id : Int) lines)

/-- The ids assigned by a sequence of calls to send_ipc_command, threading
the counter, one reply stream per call. -/
def assignedIds {α : Type} (request_id_counter : Nat) : List (List (IpcLine α)) → List Nat
  | [] => []
  | ls :: rest =>
      (send_ipc_command request_id_counter ls).1 ::
        assignedIds (α := α) (send_ipc_command request_id_counter ls).1 rest

/-! ## Session repository (src/core/repository.py)

One stored entry of the JSON file, as _save_to_file writes it and
_load_from_file reads it back.  A float-typed field of the raw JSON is a
value that float() either parses or rejects; a datetime round-trips
exactly through isoformat/fromisoformat and is an abstract Nat here. -/

/-- A raw JSON value sitting where a float is expected. -/
inductive JsonNum where
  | num (q : Rat)
  | invalid
deriving DecidableEq, Repr

/-- The defensive float coercion of _load_from_file (lines 40-48):
unparsable values become 0.0. -/
def parseFloatOr0 : JsonNum → Rat
  | JsonNum.num q => q
  | JsonNum.invalid => 0

/-- Stored metadata dict (keys the loader reads with .get have Option
type). -/
structure StoredMetadata where
  clean_title : String
  season_number : Option Int
  is_user_locked_title : Option Bool
deriving DecidableEq, Repr

/-- Stored playback dict. -/
structure StoredPlayback where
  last_played_file : String
  last_played_index : Option Nat
  position : JsonNum
  duration : JsonNum
  is_finished : Bool
  timestamp : Nat
deriving DecidableEq, Repr

/-- One entry of the sessions JSON file; key is the dict key under which
the entry is stored (the loader takes the filepath from the key, lines
34 and 58-62; the inner "filepath" copy written at line 71 is ignored on
load and omitted here). -/
structure StoredSession where
  key : String
  metadata : StoredMetadata
  playback : StoredPlayback
deriving DecidableEq, Repr

/-- _save_to_file (lines 65-79) restricted to one session: dataclass
fields are serialised verbatim (every key present). -/
def saveSession (s : Session) : StoredSession :=
  { key := s.filepath
    metadata := { clean_title := s.metadata.clean_title
                  season_number := s.metadata.season_number
                  is_user_locked_title := some s.metadata.is_user_locked_title }
    playback := { last_played_file := s.playback.last_played_file
                  last_played_index := some s.playback.last_played_index
                  position := JsonNum.num s.playback.position
                  duration := JsonNum.num s.playback.duration
                  is_finished := s.playback.is_finished
                  timestamp := s.playback.timestamp } }

/-- _load_from_file (lines 25-63) restricted to one entry: .get defaults
for season_number, is_user_locked_title and last_played_index, defensive
float coercion for position and duration. -/
def loadStored (st : StoredSession) : Session :=
  { filepath := st.key
    metadata := { clean_title := st.metadata.clean_title
                  season_number := st.metadata.season_number
                  is_user_locked_title := st.metadata.is_user_locked_title.getD false }
    playback := { last_played_file := st.playback.last_played_file
                  last_played_index := st.playback.last_played_index.getD 0
                  position := parseFloatOr0 st.playback.position
                  duration := parseFloatOr0 st.playback.duration
                  is_finished := st.playback.is_finished
                  timestamp := st.playback.timestamp } }

/-! ## Library service (src/core/services.py) -/

/-- LibraryService.update_session_metadata (lines 62-83), acting on the
resolved session: the title is written only when the metadata is not
user-locked or the same call passes is_user_locked_title = False; season
and lock overwrite whenever provided, in source order. -/
def update_session_metadata (session : Session) (clean_title : Option String)
    (season_number : Option Int) (is_user_locked_title : Option Bool) : Session :=
  let md0 := session.metadata
  let md1 :=
    match clean_title with
    | some t =>
        if md0.is_user_locked_title = false ∨ is_user_locked_title = some false then
          { md0 with clean_title := t }
        else md0
    | none => md0
  let md2 :=
    match season_number with
    | some n => { md1 with season_number := some n }
    | none => md1
  let md3 :=
    match is_user_locked_title with
    | some b => { md2 with is_user_locked_title := b }
    | none => md2
  { session with metadata := md3 }

/-- The playback merge at the end of LibraryService.launch_media (lines
133-142): every field of the playback record of the session is overwritten from the
driver result; the index is recomputed by list search with a fallback of
0 when the reported file is absent (try/except ValueError). -/
def mergePlayback (series_files : List String) (r : PlaybackState) : PlaybackState :=
  { last_played_file := r.last_played_file
    last_played_index := (series_files.findIdx? (fun x => x = r.last_played_file)).getD 0
    position := r.position
    duration := r.duration
    is_finished := r.is_finished
    timestamp := r.timestamp }

/-- LibraryService.launch_media (lines 103-146), with the freshly
computed playlist passed in (get_series_files walks the filesystem) and
the driver as a function parameter: empty playlist is a no-op; a
finished session advances to last_played_index + 1 or, past the end of
the series, is a no-op; the start time is 0 when finished and the stored
position otherwise; the driver result is merged and the session
persisted. -/
def launch_media (driver : List String → Nat → Rat → PlaybackState)
    (session : Session) (series_files : List String) : Session :=
  if series_files.isEmpty then session
  else if session.playback.is_finished = true ∧
      series_files.length ≤ session.playback.last_played_index + 1 then session
  else
    let index_to_play :=
      if session.playback.is_finished = true then session.playback.last_played_index + 1
      else session.playback.last_played_index
    let start_time :=
      if session.playback.is_finished = true then 0 else session.playback.position
    { session with
        playback := mergePlayback series_files (driver series_files index_to_play start_time) }

/-! ## Invariant predicates (spec section 3: position ≤ duration once
duration is known; never negative) -/

/-- The PlaybackState invariant stated in the spec (section 3). -/
def PlaybackInvariant (p : PlaybackState) : Prop :=
  0 ≤ p.position ∧ 0 ≤ p.duration ∧ (0 < p.duration → p.position ≤ p.duration)

instance (p : PlaybackState) : Decidable (PlaybackInvariant p) :=
  inferInstanceAs (Decidable
    (0 ≤ p.position ∧ 0 ≤ p.duration ∧ (0 < p.duration → p.position ≤ p.duration)))

/-- The corresponding invariant on the tracking-loop locals. -/
def DriverInv (s : DriverState) : Prop :=
  0 ≤ s.final_position ∧ 0 ≤ s.total_duration ∧
    (0 < s.total_duration → s.final_position ≤ s.total_duration)

instance (s : DriverState) : Decidable (DriverInv s) :=
  inferInstanceAs (Decidable
    (0 ≤ s.final_position ∧ 0 ≤ s.total_duration ∧
      (0 < s.total_duration → s.final_position ≤ s.total_duration)))

/-- The duration in effect at the moment the position poll of a tick is
adopted (after the duration poll and the transition check of that tick). -/
def durAfterPolls (s : DriverState) (t : Tick) : Rat :=
  (checkTransition (doSeek (pollDur s t.dur).1 (pollDur s t.dur).2) t.path).total_duration

/-- A tick whose polled values respect the invariant: a duration adopted
while the held one is unknown is nonnegative and at least the current
position, and a parsed position is nonnegative and within the duration
in effect when it is adopted. -/
def goodTick (s : DriverState) (t : Tick) : Bool :=
  (match t.dur with
   | some (NumResp.val q) =>
       decide (s.total_duration = 0 → 0 ≤ q ∧ (0 < q → s.final_position ≤ q))
   | _ => true) &&
  (match t.pos with
   | some (NumResp.val v) =>
       decide (0 ≤ v ∧ (0 < durAfterPolls s t → v ≤ durAfterPolls s t))
   | _ => true)

/-- goodTick threaded along the run of the tracking loop. -/
def goodTrace : DriverState → List Tick → Bool
  | _, [] => true
  | s, t :: ts => goodTick s t && goodTrace (step s t) ts

/-! ## Theorems -/

/-- C1: every PlaybackState returned by MpvDriver.launch has is_finished
true iff duration > 0 and duration - position < 5.0; in particular a
duration of 0 (unknown) forces is_finished = false. -/
theorem mpv_launch_is_finished_iff (playlist : List String) (start_index : Nat)
    (start_time : Rat) (connectOk : Bool) (ticks : List Tick) (now : Nat) :
    ((MpvDriver.launch playlist start_index start_time connectOk ticks now).state.is_finished = true ↔
      0 < (MpvDriver.launch playlist start_index start_time connectOk ticks now).state.duration ∧
        (MpvDriver.launch playlist start_index start_time connectOk ticks now).state.duration -
          (MpvDriver.launch playlist start_index start_time connectOk ticks now).state.position < 5) ∧
    ((MpvDriver.launch playlist start_index start_time connectOk ticks now).state.duration = 0 →
      (MpvDriver.launch playlist start_index start_time connectOk ticks now).state.is_finished = false) := by
  unfold MpvDriver.launch
  split
  · simp
  · split
    · constructor
      · simp [decide_eq_true_iff]
      · intro h
        simp only at h
        simp [h]
    · constructor
      · simp [initDriverState]
      · intro h
        simp

/-- Witness for C1 at a concrete launch: the duration poll never parses,
so duration stays 0 and the result is not finished despite the polled
position. -/
theorem mpv_launch_is_finished_iff_witness :
    (MpvDriver.launch ["/lib/a.mkv"] 0 0 true
        [{ dur := none, path := none, pos := some (NumResp.val 98) }]
        0).state.is_finished = false :=
  (mpv_launch_is_finished_iff ["/lib/a.mkv"] 0 0 true
    [{ dur := none, path := none, pos := some (NumResp.val 98) }] 0).2 rfl

/-- C10: launching the empty playlist returns immediately with a fresh
default PlaybackState (empty file, index 0, position 0, duration 0, not
finished, timestamp = now) and neither spawns a process nor touches the
IPC endpoint. -/
theorem mpv_launch_empty_playlist (start_index : Nat) (start_time : Rat)
    (connectOk : Bool) (ticks : List Tick) (now : Nat) :
    MpvDriver.launch [] start_index start_time connectOk ticks now =
      { state := { last_played_file := "", last_played_index := 0, position := 0,
                   duration := 0, is_finished := false, timestamp := now }
        spawned := false, ipcEndpointUsed := false, processReaped := false } := rfl

/-- C5 counterexample: when the IPC connection fails on a launch with a
requested start time of 100, the returned state carries position 100 and
the intended first file, so it is not the default PlaybackState (even at
the same capture instant). -/
theorem mpv_connect_timeout_not_default :
    (MpvDriver.launch ["/lib/a.mkv"] 0 100 false [] 7).state ≠
      { last_played_file := "", last_played_index := 0, position := 0,
        duration := 0, is_finished := false, timestamp := 7 } := by decide

/-- C5 (amended): when the IPC connection cannot be established, the
driver reaps the player process and returns a state untouched by
tracking: duration 0, not finished, position equal to the requested
start time and last_played_file the intended first playlist entry. -/
theorem mpv_connect_timeout_result (playlist : List String) (start_index : Nat)
    (start_time : Rat) (ticks : List Tick) (now : Nat) (hne : playlist ≠ []) :
    MpvDriver.launch playlist start_index start_time false ticks now =
      { state := { last_played_file :=
                     (initDriverState playlist start_index start_time).last_played_file,
                   last_played_index := 0, position := start_time, duration := 0,
                   is_finished := false, timestamp := now }
        spawned := true, ipcEndpointUsed := true, processReaped := true } := by
  cases playlist with
  | nil => exact absurd rfl hne
  | cons a l => rfl

/-- Witness for C5 (amended) at a concrete failed launch. -/
theorem mpv_connect_timeout_result_witness :
    MpvDriver.launch ["/lib/a.mkv", "/lib/b.mkv"] 1 42 false [] 3 =
      { state := { last_played_file :=
                     (initDriverState ["/lib/a.mkv", "/lib/b.mkv"] 1 42).last_played_file,
                   last_played_index := 0, position := 42, duration := 0,
                   is_finished := false, timestamp := 3 }
        spawned := true, ipcEndpointUsed := true, processReaped := true } :=
  mpv_connect_timeout_result ["/lib/a.mkv", "/lib/b.mkv"] 1 42 [] 3 (by decide)

/-- The duration poll never changes the tracked position or file. -/
theorem pollDur_fst_preserves (s : DriverState) (d : Option NumResp) :
    (pollDur s d).1.final_position = s.final_position ∧
    (pollDur s d).1.last_played_file = s.last_played_file := by
  unfold pollDur
  cases d with
  | none => exact ⟨rfl, rfl⟩
  | some v =>
    cases v with
    | unparsable => exact ⟨rfl, rfl⟩
    | val q =>
      dsimp only
      split <;> exact ⟨rfl, rfl⟩

/-- The seek/unpause stage only touches the initial_seek_done flag. -/
theorem doSeek_preserves (s : DriverState) (cd : Option Rat) :
    (doSeek s cd).final_position = s.final_position ∧
    (doSeek s cd).total_duration = s.total_duration ∧
    (doSeek s cd).last_played_file = s.last_played_file := by
  unfold doSeek
  cases cd with
  | none => exact ⟨rfl, rfl, rfl⟩
  | some q =>
    dsimp only
    split <;> exact ⟨rfl, rfl, rfl⟩

/-- Without a truthy, differing polled path, the transition check is the
identity. -/
theorem checkTransition_id (s : DriverState) (path : Option String)
    (h : ∀ p, path = some p → p = "" ∨ p = s.last_played_file) :
    checkTransition s path = s := by
  unfold checkTransition
  cases path with
  | none => rfl
  | some p =>
    dsimp only
    rcases h p rfl with h1 | h1
    · rw [if_neg]
      intro hc
      exact hc.1 h1
    · rw [if_neg]
      intro hc
      exact hc.2 h1

/-- C7 counterexample: a launch resuming at position 100 sees one tick in
which the path poll reports a new file while the position poll returns
null; the tracked position is nevertheless changed, from 100 to 0, by
the episode-transition reset. -/
theorem tracking_null_poll_counterexample :
    (MpvDriver.launch ["/lib/a.mkv", "/lib/b.mkv"] 0 100 true
        [{ dur := none, path := some "/lib/b.mkv", pos := none }] 0).state.position = 0 ∧
      (100 : Rat) ≠ 0 := by decide

/-- C7 (amended): within one tick of the tracking loop, a parseable
position poll always sets the tracked position to the parsed value, and
a null or unparseable position poll leaves the tracked position
unchanged provided the tick does not also detect an episode transition
(which resets it to 0 by design). -/
theorem step_position_update (s : DriverState) (t : Tick) :
    (∀ q, t.pos = some (NumResp.val q) → (step s t).final_position = q) ∧
    ((∀ q, t.pos ≠ some (NumResp.val q)) →
      (∀ p, t.path = some p → p = "" ∨ p = s.last_played_file) →
      (step s t).final_position = s.final_position) := by
  constructor
  · intro q hq
    show (pollPos (checkTransition (doSeek (pollDur s t.dur).1 (pollDur s t.dur).2) t.path)
      t.pos).final_position = q
    rw [hq]
    rfl
  · intro hpos hpath
    show (pollPos (checkTransition (doSeek (pollDur s t.dur).1 (pollDur s t.dur).2) t.path)
      t.pos).final_position = s.final_position
    have hlpf : (doSeek (pollDur s t.dur).1 (pollDur s t.dur).2).last_played_file =
        s.last_played_file := by
      rw [(doSeek_preserves _ _).2.2, (pollDur_fst_preserves s t.dur).2]
    have hct : checkTransition (doSeek (pollDur s t.dur).1 (pollDur s t.dur).2) t.path =
        doSeek (pollDur s t.dur).1 (pollDur s t.dur).2 := by
      apply checkTransition_id
      intro p hp
      rcases hpath p hp with h | h
      · exact Or.inl h
      · refine Or.inr ?_
        rw [hlpf]
        exact h
    have hpp : ∀ s3 : DriverState, (pollPos s3 t.pos).final_position = s3.final_position := by
      intro s3
      unfold pollPos
      cases ht : t.pos with
      | none => rfl
      | some v =>
        cases v with
        | unparsable => rfl
        | val q => exact absurd ht (hpos q)
    rw [hpp, hct, (doSeek_preserves _ _).1, (pollDur_fst_preserves s t.dur).1]

/-- Witness for C7 (amended) at a concrete state and tick: null polls and
a path matching the tracked file leave position 100 untouched. -/
theorem step_position_update_witness :
    (step { final_position := 100, total_duration := 200,
            last_played_file := "/lib/a.mkv", initial_seek_done := true }
          { dur := none, path := some "/lib/a.mkv", pos := none }).final_position = 100 :=
  (step_position_update
      { final_position := 100, total_duration := 200,
        last_played_file := "/lib/a.mkv", initial_seek_done := true }
      { dur := none, path := some "/lib/a.mkv", pos := none }).2
    (fun _ h => Option.noConfusion h)
    (fun _ hp => Or.inr (Option.some.inj hp).symm)

/-- _load_from_file inverts _save_to_file exactly (the float fields are
serialised as parseable numbers and the .get defaults are populated). -/
theorem loadStored_saveSession (s : Session) : loadStored (saveSession s) = s := rfl

/-- The duration poll preserves the loop invariant when an adopted
duration is nonnegative and at least the current position. -/
theorem driverInv_pollDur (s : DriverState) (d : Option NumResp) (hinv : DriverInv s)
    (h : ∀ q, d = some (NumResp.val q) → s.total_duration = 0 →
      0 ≤ q ∧ (0 < q → s.final_position ≤ q)) :
    DriverInv (pollDur s d).1 := by
  unfold pollDur
  cases d with
  | none => exact hinv
  | some v =>
    cases v with
    | unparsable => exact hinv
    | val q =>
      dsimp only
      split
      case isTrue hd =>
        obtain ⟨hq0, hqp⟩ := h q rfl hd
        exact ⟨hinv.1, hq0, hqp⟩
      case isFalse hd => exact hinv

/-- The seek/unpause stage preserves the loop invariant. -/
theorem driverInv_doSeek (s : DriverState) (cd : Option Rat) (hinv : DriverInv s) :
    DriverInv (doSeek s cd) := by
  unfold doSeek
  cases cd with
  | none => exact hinv
  | some q =>
    dsimp only
    split
    · exact hinv
    · exact hinv

/-- The transition check preserves the loop invariant (a transition
resets both position and duration to 0). -/
theorem driverInv_checkTransition (s : DriverState) (path : Option String)
    (hinv : DriverInv s) : DriverInv (checkTransition s path) := by
  unfold checkTransition
  cases path with
  | none => exact hinv
  | some p =>
    dsimp only
    split
    · exact ⟨le_refl 0, le_refl 0, fun h => absurd h (lt_irrefl 0)⟩
    · exact hinv

/-- The position poll preserves the loop invariant when an adopted
position is nonnegative and within the known duration. -/
theorem driverInv_pollPos (s : DriverState) (pos : Option NumResp) (hinv : DriverInv s)
    (h : ∀ v, pos = some (NumResp.val v) →
      0 ≤ v ∧ (0 < s.total_duration → v ≤ s.total_duration)) :
    DriverInv (pollPos s pos) := by
  unfold pollPos
  cases pos with
  | none => exact hinv
  | some v =>
    cases v with
    | unparsable => exact hinv
    | val q =>
      obtain ⟨h0, hd⟩ := h q rfl
      exact ⟨h0, hinv.2.1, hd⟩

/-- One good tick preserves the loop invariant. -/
theorem driverInv_step (s : DriverState) (t : Tick) (hinv : DriverInv s)
    (hgood : goodTick s t = true) : DriverInv (step s t) := by
  unfold goodTick at hgood
  rw [Bool.and_eq_true] at hgood
  obtain ⟨hdur, hpos⟩ := hgood
  have h1 : DriverInv (pollDur s t.dur).1 := by
    apply driverInv_pollDur s t.dur hinv
    intro q hq hzero
    rw [hq] at hdur
    exact of_decide_eq_true hdur hzero
  have h2 : DriverInv (doSeek (pollDur s t.dur).1 (pollDur s t.dur).2) :=
    driverInv_doSeek _ _ h1
  have h3 : DriverInv (checkTransition (doSeek (pollDur s t.dur).1 (pollDur s t.dur).2)
      t.path) := driverInv_checkTransition _ _ h2
  have h4 : DriverInv (pollPos (checkTransition
      (doSeek (pollDur s t.dur).1 (pollDur s t.dur).2) t.path) t.pos) := by
    apply driverInv_pollPos _ _ h3
    intro v hv
    rw [hv] at hpos
    exact of_decide_eq_true hpos
  exact h4

/-- A good trace preserves the loop invariant along the whole run. -/
theorem driverInv_foldl (ticks : List Tick) : ∀ s : DriverState, DriverInv s →
    goodTrace s ticks = true → DriverInv (ticks.foldl step s) := by
  induction ticks with
  | nil => exact fun s h _ => h
  | cons t ts ih =>
    intro s h hg
    unfold goodTrace at hg
    rw [Bool.and_eq_true] at hg
    exact ih (step s t) (driverInv_step s t h hg.1) hg.2

/-- C9 counterexample: the repository loads a stored entry whose position
(500) exceeds its known duration (100) verbatim, so the loaded
PlaybackState violates the invariant. -/
theorem playback_invariant_load_counterexample :
    ¬ PlaybackInvariant (loadStored
      { key := "/lib/a.mkv"
        metadata := { clean_title := "a", season_number := none,
                      is_user_locked_title := some false }
        playback := { last_played_file := "/lib/a.mkv", last_played_index := some 0,
                      position := JsonNum.num 500, duration := JsonNum.num 100,
                      is_finished := false, timestamp := 0 } }).playback := by decide

/-- C9 (amended): the invariant holds for every driver result whose
launch starts at a nonnegative time and whose polled values respect the
invariant (goodTrace), and the repository round trip preserves the
invariant; neither component enforces it against out-of-range inputs. -/
theorem playback_invariant_conditional :
    (∀ (playlist : List String) (start_index : Nat) (start_time : Rat) (connectOk : Bool)
        (ticks : List Tick) (now : Nat),
      0 ≤ start_time →
      goodTrace (initDriverState playlist start_index start_time) ticks = true →
      PlaybackInvariant
        ((MpvDriver.launch playlist start_index start_time connectOk ticks now).state)) ∧
    (∀ s : Session, PlaybackInvariant s.playback →
      PlaybackInvariant (loadStored (saveSession s)).playback) := by
  constructor
  · intro playlist start_index start_time connectOk ticks now hst hgood
    have hinv0 : DriverInv (initDriverState playlist start_index start_time) :=
      ⟨hst, le_refl 0, fun h => absurd h (lt_irrefl 0)⟩
    unfold MpvDriver.launch
    split
    · exact ⟨le_refl 0, le_refl 0, fun h => absurd h (lt_irrefl 0)⟩
    · split
      · have hf := driverInv_foldl ticks _ hinv0 hgood
        exact ⟨hf.1, hf.2.1, hf.2.2⟩
      · exact ⟨hst, le_refl 0, fun h => absurd h (lt_irrefl 0)⟩
  · intro s h
    rw [loadStored_saveSession s]
    exact h

/-- Witness for C9 (amended) at a concrete well-behaved launch and a
concrete session. -/
theorem playback_invariant_conditional_witness :
    PlaybackInvariant ((MpvDriver.launch ["/lib/a.mkv"] 0 10 true
      [{ dur := some (NumResp.val 100), path := none, pos := some (NumResp.val 50) }]
      0).state) :=
  playback_invariant_conditional.1 ["/lib/a.mkv"] 0 10 true
    [{ dur := some (NumResp.val 100), path := none, pos := some (NumResp.val 50) }] 0
    (by decide) (by decide)

/-- C3: update_session_metadata writes a provided clean_title only when
the metadata is not currently user-locked or the same call passes
is_user_locked_title = false; a provided season_number always
overwrites; a provided lock flag always overwrites; and while the lock
is set and not explicitly cleared, clean_title is left unchanged by any
title write attempt. -/
theorem update_session_metadata_lock (session : Session) (ct : Option String)
    (season : Option Int) (lock : Option Bool) :
    ((session.metadata.is_user_locked_title = true → lock ≠ some false →
      (update_session_metadata session ct season lock).metadata.clean_title =
        session.metadata.clean_title) ∧
     (∀ t, ct = some t →
      (session.metadata.is_user_locked_title = false ∨ lock = some false) →
      (update_session_metadata session ct season lock).metadata.clean_title = t) ∧
     (∀ n, season = some n →
      (update_session_metadata session ct season lock).metadata.season_number = some n) ∧
     (∀ b, lock = some b →
      (update_session_metadata session ct season lock).metadata.is_user_locked_title = b)) := by
  unfold update_session_metadata
  refine ⟨?_, ?_, ?_, ?_⟩
  · intro hlock hnolock
    cases ct <;> cases season <;> cases lock <;> simp_all
  · intro t ht hok
    subst ht
    rcases hok with h | h
    · cases season <;> cases lock <;> simp_all
    · subst h
      cases season <;> simp_all
  · intro n hn
    subst hn
    cases ct <;> cases lock <;> simp_all
  · intro b hb
    subst hb
    cases ct <;> cases season <;> simp_all

/-- Witness for C3 at a concrete locked session: a title write with no
explicit unlock leaves the locked title unchanged. -/
theorem update_session_metadata_lock_witness :
    (update_session_metadata
      { filepath := "/lib/a.mkv"
        metadata := { clean_title := "Kept", season_number := none,
                      is_user_locked_title := true } }
      (some "Guess") (some 2) none).metadata.clean_title = "Kept" :=
  (update_session_metadata_lock
      { filepath := "/lib/a.mkv"
        metadata := { clean_title := "Kept", season_number := none,
                      is_user_locked_title := true } }
      (some "Guess") (some 2) none).1 rfl (fun h => Option.noConfusion h)

/-- C2: for a finished session at index i in an N-file playlist,
launch_media with i+1 < N invokes the driver at start index i+1 with
start time 0; with i+1 >= N it returns the session unchanged for every
driver (no invocation); for an unfinished session it invokes the driver
at index last_played_index with start time equal to the stored
position. -/
theorem launch_media_start_point (driver : List String → Nat → Rat → PlaybackState)
    (session : Session) (series_files : List String) :
    ((series_files ≠ [] → session.playback.is_finished = true →
      session.playback.last_played_index + 1 < series_files.length →
      launch_media driver session series_files =
        { session with
            playback := mergePlayback series_files
              (driver series_files (session.playback.last_played_index + 1) 0) }) ∧
     (session.playback.is_finished = true →
      series_files.length ≤ session.playback.last_played_index + 1 →
      launch_media driver session series_files = session) ∧
     (series_files ≠ [] → session.playback.is_finished = false →
      launch_media driver session series_files =
        { session with
            playback := mergePlayback series_files
              (driver series_files session.playback.last_played_index
                session.playback.position) })) := by
  refine ⟨?_, ?_, ?_⟩
  · intro hne hfin hlt
    have h0 : series_files.isEmpty = false := by
      cases series_files with
      | nil => exact absurd rfl hne
      | cons a l => rfl
    simp [launch_media, h0, hfin, Nat.not_le.mpr hlt]
  · intro hfin hge
    cases hse : series_files.isEmpty with
    | true =>
      simp [launch_media, hse]
    | false =>
      simp [launch_media, hse, hfin, hge]
  · intro hne hfin
    have h0 : series_files.isEmpty = false := by
      cases series_files with
      | nil => exact absurd rfl hne
      | cons a l => rfl
    simp [launch_media, h0, hfin]

/-- Witness for C2 at a concrete finished mid-series session and a
concrete driver: the next episode is launched from 0. -/
theorem launch_media_start_point_witness :
    launch_media
      (fun files i _ => { last_played_file := files.getD i "", position := 1 })
      { filepath := "/lib"
        metadata := { clean_title := "t" }
        playback := { last_played_file := "/lib/a.mkv", last_played_index := 0,
                      position := 30, duration := 31, is_finished := true,
                      timestamp := 0 } }
      ["/lib/a.mkv", "/lib/b.mkv"] =
      { filepath := "/lib"
        metadata := { clean_title := "t" }
        playback := mergePlayback ["/lib/a.mkv", "/lib/b.mkv"]
          ((fun files i _ => { last_played_file := files.getD i "", position := 1 })
            ["/lib/a.mkv", "/lib/b.mkv"] 1 0) } :=
  (launch_media_start_point
      (fun files i _ => { last_played_file := files.getD i "", position := 1 })
      { filepath := "/lib"
        metadata := { clean_title := "t" }
        playback := { last_played_file := "/lib/a.mkv", last_played_index := 0,
                      position := 30, duration := 31, is_finished := true,
                      timestamp := 0 } }
      ["/lib/a.mkv", "/lib/b.mkv"]).1 (by decide) rfl (by decide)

/-- C8: after the driver returns, launch_media stores as
last_played_index the index of the driver-reported final file within the
freshly computed playlist, and 0 when that file does not occur in it. -/
theorem launch_media_index_recompute (driver : List String → Nat → Rat → PlaybackState)
    (session : Session) (series_files : List String) (hne : series_files ≠ [])
    (hgo : ¬(session.playback.is_finished = true ∧
      series_files.length ≤ session.playback.last_played_index + 1)) :
    (launch_media driver session series_files).playback.last_played_index =
      (series_files.findIdx? (fun x =>
        x = (launch_media driver session series_files).playback.last_played_file)).getD 0 ∧
    ((launch_media driver session series_files).playback.last_played_file ∉ series_files →
      (launch_media driver session series_files).playback.last_played_index = 0) := by
  have h0 : series_files.isEmpty = false := by
    cases series_files with
    | nil => exact absurd rfl hne
    | cons a l => rfl
  have hmain : launch_media driver session series_files =
      { session with
          playback := mergePlayback series_files (driver series_files
            (if session.playback.is_finished = true then
              session.playback.last_played_index + 1
             else session.playback.last_played_index)
            (if session.playback.is_finished = true then 0
             else session.playback.position)) } := by
    unfold launch_media
    rw [h0]
    simp only [Bool.false_eq_true, if_false]
    rw [if_neg hgo]
  rw [hmain]
  generalize driver series_files
      (if session.playback.is_finished = true then session.playback.last_played_index + 1
       else session.playback.last_played_index)
      (if session.playback.is_finished = true then 0 else session.playback.position) = r
  constructor
  · simp [mergePlayback]
  · intro hnotin
    simp only [mergePlayback] at hnotin ⊢
    have hnone : series_files.findIdx? (fun x => x = r.last_played_file) = none := by
      rw [List.findIdx?_eq_none_iff]
      intro x hx
      simp only [decide_eq_false_iff_not]
      intro hxe
      exact hnotin (hxe ▸ hx)
    rw [hnone]
    rfl

/-- Witness for C8: a driver reporting a file outside the playlist makes
the stored index fall back to 0. -/
theorem launch_media_index_recompute_witness :
    (launch_media (fun _ _ _ => { last_played_file := "/elsewhere.mkv" })
      { filepath := "/lib"
        metadata := { clean_title := "t" }
        playback := { last_played_file := "/lib/a.mkv", last_played_index := 0,
                      position := 10, duration := 100, is_finished := false,
                      timestamp := 0 } }
      ["/lib/a.mkv", "/lib/b.mkv"]).playback.last_played_index = 0 :=
  (launch_media_index_recompute (fun _ _ _ => { last_played_file := "/elsewhere.mkv" })
      { filepath := "/lib"
        metadata := { clean_title := "t" }
        playback := { last_played_file := "/lib/a.mkv", last_played_index := 0,
                      position := 10, duration := 100, is_finished := false,
                      timestamp := 0 } }
      ["/lib/a.mkv", "/lib/b.mkv"] (by decide) (by decide)).2 (by decide)

/-- The ids assigned by successive protocol calls form a strictly
ascending chain above the starting counter. -/
theorem assignedIds_chain {α : Type} (streams : List (List (IpcLine α))) :
    ∀ c : Nat, List.Chain (· < ·) c (assignedIds (α := α) c streams) := by
  induction streams with
  | nil => exact fun c => List.Chain.nil
  | cons ls rest ih =>
    intro c
    exact List.Chain.cons (Nat.lt_succ_self c) (ih (c + 1))

/-- C6: the protocol client ignores reply lines whose request_id differs
from the outstanding request (and malformed lines), returns exactly the
data of the matching reply when its error is "success" and null otherwise,
and assigns a strictly increasing request id per call. -/
theorem ipc_reply_correlation :
    (∀ (α : Type) (rid : Int) (r : Option Int) (e : String) (d : Option α)
        (rest : List (IpcLine α)), r ≠ some rid →
      readReplies rid (IpcLine.reply r e d :: rest) = readReplies rid rest) ∧
    (∀ (α : Type) (rid : Int) (rest : List (IpcLine α)),
      readReplies rid (IpcLine.malformed :: rest) = readReplies rid rest) ∧
    (∀ (α : Type) (rid : Int) (e : String) (d : Option α) (rest : List (IpcLine α)),
      readReplies rid (IpcLine.reply (some rid) e d :: rest) =
        if e = "success" then d else none) ∧
    (∀ (α : Type) (c : Nat) (lines : List (IpcLine α)), c < (send_ipc_command c lines).1) ∧
    (∀ (α : Type) (c : Nat) (streams : List (List (IpcLine α))),
      List.Chain' (· < ·) (assignedIds (α := α) c streams)) := by
  refine ⟨?_, ?_, ?_, ?_, ?_⟩
  · intro α rid r e d rest hr
    simp only [readReplies]
    rw [if_neg hr]
  · intro α rid rest
    rfl
  · intro α rid e d rest
    simp only [readReplies, if_true]
  · intro α c lines
    exact Nat.lt_succ_self c
  · intro α c streams
    cases streams with
    | nil => exact List.chain'_nil
    | cons ls rest => exact assignedIds_chain (α := α) rest (c + 1)

/-- Witness for C6: a reply with id 4 and a malformed line are skipped,
the reply with the matching id 5 is returned. -/
theorem ipc_reply_correlation_witness :
    readReplies (α := Rat) 5
      [IpcLine.reply (some 4) "success" (some 1), IpcLine.malformed,
       IpcLine.reply (some 5) "success" (some 2)] = some 2 := by
  rw [ipc_reply_correlation.1 Rat 5 (some 4) "success" (some 1) _ (by decide),
    ipc_reply_correlation.2.1 Rat 5,
    ipc_reply_correlation.2.2.1 Rat 5 "success" (some 2) []]
  rfl

/-- C4: saving a Session and reloading the store reproduces every field
exactly (hence within the 1e-9 float tolerance for position and
duration), and a stored position or duration that float() rejects is
coerced to 0.0 on load. -/
theorem repository_round_trip (s : Session) (st : StoredSession) :
    loadStored (saveSession s) = s ∧
    |(loadStored (saveSession s)).playback.position - s.playback.position| ≤ 1 / 1000000000 ∧
    |(loadStored (saveSession s)).playback.duration - s.playback.duration| ≤ 1 / 1000000000 ∧
    (st.playback.position = JsonNum.invalid → (loadStored st).playback.position = 0) ∧
    (st.playback.duration = JsonNum.invalid → (loadStored st).playback.duration = 0) := by
  refine ⟨loadStored_saveSession s, ?_, ?_, ?_, ?_⟩
  · rw [loadStored_saveSession s]
    simp
  · rw [loadStored_saveSession s]
    simp
  · intro h
    simp [loadStored, h, parseFloatOr0]
  · intro h
    simp [loadStored, h, parseFloatOr0]

/-- Witness for C4: an unparsable stored position loads as 0. -/
theorem repository_round_trip_witness :
    (loadStored
      { key := "/lib/a.mkv"
        metadata := { clean_title := "A", season_number := some 2,
                      is_user_locked_title := some true }
        playback := { last_played_file := "/lib/a.mkv", last_played_index := some 1,
                      position := JsonNum.invalid, duration := JsonNum.num 100,
                      is_finished := false, timestamp := 9 } }).playback.position = 0 :=
  (repository_round_trip { filepath := "f", metadata := { clean_title := "t" } }
      { key := "/lib/a.mkv"
        metadata := { clean_title := "A", season_number := some 2,
                      is_user_locked_title := some true }
        playback := { last_played_file := "/lib/a.mkv", last_played_index := some 1,
                      position := JsonNum.invalid, duration := JsonNum.num 100,
                      is_finished := false, timestamp := 9 } }).2.2.2.1 rfl

end CelluloidRecall
